import Mathlib

/-!
Shallow embedding of the PromptLayer RunAgent n8n node
(src/nodes/RunAgent/PromptLayerRunAgent.node.ts and the legacy variant in
src/nodes/RunAgent/RunAgent.node.ts), covering:

* request-body construction from per-item node parameters,
* submission-response handling (`workflow_version_execution_id` extraction),
* the polling loop with its 5-second sleeps, wall-clock timeout and
  HTTP status-code dispatch,
* the per-item try/catch loop with the host's continue-on-fail policy,
* the paginated agent-listing loop (`getWorkflows` loadOptions method).

JavaScript specifics are modelled explicitly:
* `JSON.parse` of a raw parameter string is modelled by an
  `Except String Json` value carried in the parameter record (`.error m`
  stands for a string on which `JSON.parse` throws with message `m`,
  `.ok j` for a string parsing to `j`);
* JS truthiness of an optional field is modelled by `Option` plus an
  explicit zero/empty test where the code tests a number or string;
* `Date.now()` time is modelled by a millisecond counter advanced by each
  poll's network latency and by each 5000 ms sleep.
-/

/-- JSON values, the result type of `JSON.parse`. -/
inductive Json where
  | null : Json
  | bool : Bool → Json
  | num : Int → Json
  | str : String → Json
  | arr : List Json → Json
  | obj : List (String × Json) → Json

/-- The typed failures the node can raise per item (each is thrown as a
`NodeOperationError` in the source).  `malformedInput` carries the field
name ("Input Variables" or "Metadata") and the underlying `JSON.parse`
error message. -/
inductive NodeError where
  | malformedInput : String → String → NodeError
  | missingExecutionId : NodeError
  | unexpectedStatusCode : Nat → NodeError
  | timedOut : NodeError
deriving DecidableEq

/-- The message attached to each `NodeOperationError` in the source. -/
def NodeError.message : NodeError → String
  | .malformedInput field m => "Invalid JSON in " ++ field ++ ": " ++ m
  | .missingExecutionId => "Missing workflow_version_execution_id in response"
  | .unexpectedStatusCode code => "Unexpected status code " ++ toString code
  | .timedOut => "Execution timed out after 10 minutes"

/-- The `additionalFields` collection parameter of the PromptLayerRunAgent
node.  `metadata = none` models the field being absent or falsy (e.g. the
empty string); `some p` models a truthy raw string whose `JSON.parse`
outcome is `p`.  `returnAllOutputs`/`timeout` are `none` when the user did
not add the field (`undefined` in JS). -/
structure AdditionalFields where
  metadata : Option (Except String Json)
  returnAllOutputs : Option Bool
  timeout : Option Nat

/-- Per-item parameters of the PromptLayerRunAgent node.
`agentVersionNumber` is the result of `Number(getNodeParameter(...))`
(0 when the parameter is unset, since `Number(null) = 0` and the default
is the empty string with `Number('') = 0`). -/
structure ItemParams where
  agentName : String
  useAgentLabel : Bool
  agentVersionNumber : Int
  agentLabelName : String
  inputVariables : Except String Json
  additionalFields : AdditionalFields

/-- The keys of a request body, in insertion order. -/
def bodyKeys (body : List (String × Json)) : List String :=
  body.map Prod.fst

/-- Request-body construction of `PromptLayerRunAgent.execute`
(src/nodes/RunAgent/PromptLayerRunAgent.node.ts, the block from
"Parse input variables JSON" to the `return_all_outputs` assignment).
The effective version number is `null` when `useAgentLabel` is true and
the effective label is `''` when it is false, exactly as in the source;
`if (agentVersionNumber)` / `if (agentLabelName)` are the JS truthiness
tests on those values. -/
def promptLayerBuildRequestBody (p : ItemParams) :
    Except NodeError (List (String × Json)) := do
  let parsedInputVariables ←
    match p.inputVariables with
    | .error m => .error (.malformedInput "Input Variables" m)
    | .ok j => .ok j
  let body := [("input_variables", parsedInputVariables)]
  let agentVersionNumber : Option Int :=
    if p.useAgentLabel then none else some p.agentVersionNumber
  let agentLabelName : String := if p.useAgentLabel then p.agentLabelName else ""
  let body :=
    match agentVersionNumber with
    | some v => if v ≠ 0 then body ++ [("workflow_version_number", Json.num v)] else body
    | none => body
  let body :=
    if agentLabelName ≠ "" then body ++ [("workflow_label_name", Json.str agentLabelName)]
    else body
  let body ←
    match p.additionalFields.metadata with
    | none => .ok body
    | some (.error m) => .error (.malformedInput "Metadata" m)
    | some (.ok j) => .ok (body ++ [("metadata", j)])
  .ok (body ++ [("return_all_outputs",
    Json.bool (p.additionalFields.returnAllOutputs.getD false))])

/-- Per-item parameters of the legacy `RunAgent` node
(src/nodes/RunAgent/RunAgent.node.ts): the version selector is a free-form
string parameter and the label lives in `additionalFields`, independent of
the version.  `returnAllOutputs` is `none` when unset. -/
structure RunAgentItemParams where
  agentName : String
  workflowVersionNumber : String
  inputVariables : Except String Json
  metadata : Option (Except String Json)
  returnAllOutputs : Option Bool
  workflowLabelName : String

/-- Request-body construction of the legacy `RunAgent.execute`
(src/nodes/RunAgent/RunAgent.node.ts, the block from "Build request body"
to the `workflow_label_name` assignment).  Note that `return_all_outputs`
is only added when `additionalFields.returnAllOutputs` is truthy, and that
the version-number and label tests are independent. -/
def runAgentBuildRequestBody (p : RunAgentItemParams) :
    Except NodeError (List (String × Json)) := do
  let parsedInputVariables ←
    match p.inputVariables with
    | .error m => .error (.malformedInput "Input Variables" m)
    | .ok j => .ok j
  let body := [("input_variables", parsedInputVariables)]
  let body :=
    if p.workflowVersionNumber ≠ "" then
      body ++ [("workflow_version_number", Json.str p.workflowVersionNumber)]
    else body
  let body ←
    match p.metadata with
    | none => .ok body
    | some (.error m) => .error (.malformedInput "Metadata" m)
    | some (.ok j) => .ok (body ++ [("metadata", j)])
  let body :=
    if p.returnAllOutputs.getD false then
      body ++ [("return_all_outputs", Json.bool true)]
    else body
  let body :=
    if p.workflowLabelName ≠ "" then
      body ++ [("workflow_label_name", Json.str p.workflowLabelName)]
    else body
  .ok body


/-- One poll response as observed by `PromptLayerRunAgent.execute` through
`resolveWithFullResponse: true`: the HTTP status code, the status message
(reason phrase), the parsed body, and the wall-clock milliseconds the HTTP
round-trip itself consumed. -/
structure PollResponse where
  statusCode : Nat
  statusMessage : String
  body : Json
  latency : Nat

/-- Terminal state of the polling loop: `completed` with the full response
body, `unexpectedStatus` with the offending status code, or `timedOut`. -/
inductive PollResult where
  | completed : Json → PollResult
  | unexpectedStatus : Nat → PollResult
  | timedOut : PollResult

/-- Observable trace of one run of the polling loop: the terminal result,
the number of 5-second `sleep(5000)` suspensions performed, and the number
of GET polls issued. -/
structure PollRun where
  result : PollResult
  sleeps : Nat
  polls : Nat

/-- The `while (Date.now() - startTime < timeoutMs)` polling loop of
`PromptLayerRunAgent.execute`.  `resp k` is the response to the `k`-th
poll of `GET /workflow-version-execution-results`; `elapsed` is
`Date.now() - startTime` in ms at the top-of-loop check.  A poll advances
the clock by its latency; each `202` branch additionally sleeps 5000 ms.
The `200` branch requires `statusCode === 200 && statusMessage === 'OK'`
exactly as the source does; leaving the loop without a result (the
`if (!finalResult)` check after the loop) yields `timedOut`. -/
def pollLoop (timeoutMs : Nat) (resp : Nat → PollResponse) (k : Nat) (elapsed : Nat) :
    PollRun :=
  if h : elapsed < timeoutMs then
    let r := resp k
    if r.statusCode = 200 ∧ r.statusMessage = "OK" then
      { result := .completed r.body, sleeps := 0, polls := 1 }
    else if r.statusCode = 202 then
      let rest := pollLoop timeoutMs resp (k + 1) (elapsed + r.latency + 5000)
      { result := rest.result, sleeps := rest.sleeps + 1, polls := rest.polls + 1 }
    else
      { result := .unexpectedStatus r.statusCode, sleeps := 0, polls := 1 }
  else
    { result := .timedOut, sleeps := 0, polls := 0 }
termination_by timeoutMs - elapsed
decreasing_by simp_wf; omega

/-- The remote environment one item's processing interacts with:
`execIdField` is the `workflow_version_execution_id` field of the
submission response (`none` when the field is absent), and `resp`
enumerates the poll responses the results endpoint returns. -/
structure ItemEnv where
  execIdField : Option Int
  resp : Nat → PollResponse

/-- Observable outcome of processing one input item: the final result
pushed to `returnData` (or the error thrown), and how many polls were
issued for this item. -/
structure ItemRun where
  outcome : Except NodeError Json
  polls : Nat

/-- The body of the per-item `try` block of `PromptLayerRunAgent.execute`:
build the request body, submit (the submission response is `env`),
extract `workflow_version_execution_id` with the JS-falsy test
`if (!execId)` (absent or `0` both fail), compute
`timeoutMs = (additionalFields.timeout !== undefined ? Number(...) : 10) * 60_000`,
and run the polling loop. -/
def processItem (p : ItemParams) (env : ItemEnv) : ItemRun :=
  match promptLayerBuildRequestBody p with
  | .error e => { outcome := .error e, polls := 0 }
  | .ok _requestBody =>
    match env.execIdField with
    | none => { outcome := .error .missingExecutionId, polls := 0 }
    | some execId =>
      if execId = 0 then { outcome := .error .missingExecutionId, polls := 0 }
      else
        let timeoutMinutes := p.additionalFields.timeout.getD 10
        let timeoutMs := timeoutMinutes * 60000
        let run := pollLoop timeoutMs env.resp 0 0
        match run.result with
        | .completed b => { outcome := .ok b, polls := run.polls }
        | .unexpectedStatus c => { outcome := .error (.unexpectedStatusCode c), polls := run.polls }
        | .timedOut => { outcome := .error .timedOut, polls := run.polls }

/-- One entry of the node's output list: a successful item's result body,
or the error entry `{error: <message>, json: {}, pairedItem: {item: i}}`
pushed when `continueOnFail()` is set. -/
inductive ItemResult where
  | success : Json → ItemResult
  | errorEntry : String → Nat → ItemResult

/-- The per-item `for` loop of `PromptLayerRunAgent.execute` with its
`try/catch`, processing items from index `i` on.  On a caught error, with
`continueOnFail()` true the loop pushes an error entry carrying the
message and the item index and continues; otherwise it rethrows
`Error executing Agent: <message>` with the item index, aborting the run. -/
def executeFrom (continueOnFail : Bool) (i : Nat) :
    List (ItemParams × ItemEnv) → Except (String × Nat) (List ItemResult)
  | [] => .ok []
  | (p, env) :: rest =>
    match (processItem p env).outcome with
    | .ok body =>
      match executeFrom continueOnFail (i + 1) rest with
      | .ok out => .ok (.success body :: out)
      | .error e => .error e
    | .error err =>
      if continueOnFail then
        match executeFrom continueOnFail (i + 1) rest with
        | .ok out => .ok (.errorEntry err.message i :: out)
        | .error e => .error e
      else
        .error ("Error executing Agent: " ++ err.message, i)

/-- `PromptLayerRunAgent.execute` over the whole input list: the item loop
started at index 0. -/
def executeAll (continueOnFail : Bool) (items : List (ItemParams × ItemEnv)) :
    Except (String × Nat) (List ItemResult) :=
  executeFrom continueOnFail 0 items

/-- One page of the `GET /workflows` listing used by the `getWorkflows`
loadOptions method: the page's agent names, the `has_next` flag and the
server-provided `next_num` cursor (`none` models `null`/absent). -/
structure WorkflowsPage where
  items : List String
  has_next : Bool
  next_num : Option Nat

/-- `page = response.next_num || page + 1`: the next page to request is
the server-provided cursor, falling back to the incremented counter when
`next_num` is JS-falsy (`null`, absent, or `0`). -/
def nextPageNumber (r : WorkflowsPage) (page : Nat) : Nat :=
  match r.next_num with
  | some n => if n = 0 then page + 1 else n
  | none => page + 1

/-- The `while (hasNext)` loop of the `getWorkflows` loadOptions method,
modelled with explicit fuel (the JS loop has no iteration bound; `none`
means the fuel ran out, a model artifact only).  `server p` is the
response to `GET /workflows?page=p&per_page=100`.  Returns the
accumulated agent names in push order together with the trace of page
numbers fetched, in fetch order. -/
def getWorkflowsLoop (server : Nat → WorkflowsPage) :
    Nat → Nat → Option (List String × List Nat)
  | 0, _ => none
  | fuel + 1, page =>
    let r := server page
    if r.has_next then
      match getWorkflowsLoop server fuel (nextPageNumber r page) with
      | none => none
      | some (names, visited) => some (r.items ++ names, page :: visited)
    else
      some (r.items, [page])

/-- The `getWorkflows` loadOptions method: the pagination loop started at
`page = 1`. -/
def getWorkflows (server : Nat → WorkflowsPage) (fuel : Nat) :
    Option (List String × List Nat) :=
  getWorkflowsLoop server fuel 1
/-- Closed form of `promptLayerBuildRequestBody` on valid input variables
and valid-or-absent metadata. -/
theorem promptLayerBuildRequestBody_ok_eq (an : String) (ul : Bool) (vn : Int)
    (ln : String) (j : Json) (md : Option Json) (rao : Option Bool) (tmo : Option Nat) :
    promptLayerBuildRequestBody ⟨an, ul, vn, ln, .ok j, md.map Except.ok, rao, tmo⟩ =
      .ok ([("input_variables", j)] ++
        (if ul = false ∧ vn ≠ 0 then [("workflow_version_number", Json.num vn)] else []) ++
        (if ul = true ∧ ln ≠ "" then [("workflow_label_name", Json.str ln)] else []) ++
        (match md with | none => [] | some jm => [("metadata", jm)]) ++
        [("return_all_outputs", Json.bool (rao.getD false))]) := by
  cases ul <;> rcases md with _ | jm <;>
    by_cases hv : vn = 0 <;> by_cases hl : ln = "" <;>
    simp [promptLayerBuildRequestBody, hv, hl, Bind.bind, Except.bind]

/-- C3: on any parameters whose input variables and (when provided)
metadata are valid JSON, the PromptLayerRunAgent request body contains
`input_variables` and `return_all_outputs` (the latter with value
`false` when the field is unset), never both `workflow_version_number`
and `workflow_label_name`, and contains `metadata` only when the metadata
field was provided. -/
theorem promptLayer_request_body_shape (p : ItemParams)
    (hiv : ∃ j, p.inputVariables = .ok j)
    (hmd : ∀ e, p.additionalFields.metadata = some e → ∃ j, e = .ok j) :
    ∃ body, promptLayerBuildRequestBody p = .ok body ∧
      "input_variables" ∈ bodyKeys body ∧
      "return_all_outputs" ∈ bodyKeys body ∧
      (p.additionalFields.returnAllOutputs = none →
        ("return_all_outputs", Json.bool false) ∈ body) ∧
      ¬("workflow_version_number" ∈ bodyKeys body ∧
        "workflow_label_name" ∈ bodyKeys body) ∧
      (p.additionalFields.metadata = none → "metadata" ∉ bodyKeys body) := by
  obtain ⟨an, ul, vn, ln, iv, md, rao, tmo⟩ := p
  obtain ⟨j, hj⟩ := hiv
  simp only at hj hmd ⊢
  subst hj
  obtain ⟨md', rfl⟩ : ∃ md' : Option Json, md = Option.map Except.ok md' := by
    rcases md with _ | e
    · exact ⟨none, rfl⟩
    · obtain ⟨jm, rfl⟩ := hmd e rfl
      exact ⟨some jm, rfl⟩
  refine ⟨_, promptLayerBuildRequestBody_ok_eq an ul vn ln j md' rao tmo, ?_, ?_, ?_, ?_, ?_⟩
  · simp [bodyKeys]
  · simp [bodyKeys]
  · rintro rfl
    simp
  · rintro ⟨hv, hl⟩
    rcases md' with _ | jm <;> cases ul <;> simp [bodyKeys] at hv hl
  · rintro hmd0
    obtain rfl : md' = none := by simpa using hmd0
    cases ul <;> split_ifs <;> simp_all [bodyKeys]

/-- Witness for C3 at concrete parameters (label mode, label "prod",
metadata provided, return-all-outputs unset). -/
theorem promptLayer_request_body_shape_witness :
    ∃ body, promptLayerBuildRequestBody
        ⟨"agent", true, 0, "prod", .ok (Json.obj []),
          ⟨some (.ok (Json.obj [])), none, none⟩⟩ = .ok body ∧
      "input_variables" ∈ bodyKeys body ∧
      "return_all_outputs" ∈ bodyKeys body ∧
      ((⟨some (.ok (Json.obj [])), none, none⟩ : AdditionalFields).returnAllOutputs = none →
        ("return_all_outputs", Json.bool false) ∈ body) ∧
      ¬("workflow_version_number" ∈ bodyKeys body ∧
        "workflow_label_name" ∈ bodyKeys body) ∧
      ((⟨some (.ok (Json.obj [])), none, none⟩ : AdditionalFields).metadata = none →
        "metadata" ∉ bodyKeys body) :=
  promptLayer_request_body_shape _ ⟨Json.obj [], rfl⟩
    (fun e he => ⟨Json.obj [], by simpa using he.symm⟩)

/-- C3 counterexample: in the legacy RunAgent node, setting the
version-number parameter to "1" and the label field to "prod" puts both
`workflow_version_number` and `workflow_label_name` into the body, and
with `returnAllOutputs` unset the body has no `return_all_outputs` key. -/
theorem runAgent_request_body_both_selectors :
    ∃ body, runAgentBuildRequestBody
        ⟨"agent", "1", .ok (Json.obj []), none, none, "prod"⟩ = .ok body ∧
      "workflow_version_number" ∈ bodyKeys body ∧
      "workflow_label_name" ∈ bodyKeys body ∧
      "return_all_outputs" ∉ bodyKeys body := by
  refine ⟨_, rfl, ?_⟩
  simp [runAgentBuildRequestBody, bodyKeys]

/-- On valid input variables and valid-or-absent metadata the builder
succeeds. -/
theorem promptLayerBuildRequestBody_isOk (p : ItemParams)
    (hiv : ∃ j, p.inputVariables = .ok j)
    (hmd : ∀ e, p.additionalFields.metadata = some e → ∃ j, e = .ok j) :
    ∃ body, promptLayerBuildRequestBody p = .ok body := by
  obtain ⟨an, ul, vn, ln, iv, md, rao, tmo⟩ := p
  obtain ⟨j, hj⟩ := hiv
  simp only at hj hmd ⊢
  subst hj
  obtain ⟨md', rfl⟩ : ∃ md' : Option Json, md = Option.map Except.ok md' := by
    rcases md with _ | e
    · exact ⟨none, rfl⟩
    · obtain ⟨jm, rfl⟩ := hmd e rfl
      exact ⟨some jm, rfl⟩
  exact ⟨_, promptLayerBuildRequestBody_ok_eq an ul vn ln j md' rao tmo⟩

/-- On a stream of polls that all return 202, the loop always ends in
`timedOut`. -/
theorem pollLoop_all_202_result (timeoutMs : Nat) (resp : Nat → PollResponse)
    (h202 : ∀ n, (resp n).statusCode = 202) :
    ∀ m k elapsed, timeoutMs - elapsed ≤ m →
      (pollLoop timeoutMs resp k elapsed).result = .timedOut := by
  intro m
  induction m with
  | zero =>
    intro k elapsed h
    rw [pollLoop]
    have hlt : ¬ elapsed < timeoutMs := by omega
    simp [hlt]
  | succ m ih =>
    intro k elapsed h
    rw [pollLoop]
    by_cases hlt : elapsed < timeoutMs
    · have hne : ¬((resp k).statusCode = 200 ∧ (resp k).statusMessage = "OK") := by
        rw [h202 k]; simp
      simp only [hlt, dif_pos, hne, if_false, h202 k, if_pos]
      exact ih (k + 1) (elapsed + (resp k).latency + 5000) (by omega)
    · simp [hlt]

/-- C2: for an item whose polls all return 202, processing ends in the
`timedOut` error (with the timeout taken from the user-configurable
minutes field, default 10, inside `processItem`); and as soon as the
elapsed wall-clock time at a loop check is at least the timeout, the loop
stops with `timedOut` performing no further polls and no further sleeps. -/
theorem polling_all_202_times_out (p : ItemParams) (env : ItemEnv)
    (hiv : ∃ j, p.inputVariables = .ok j)
    (hmd : ∀ e, p.additionalFields.metadata = some e → ∃ j, e = .ok j)
    (hid : ∃ v, env.execIdField = some v ∧ v ≠ 0)
    (h202 : ∀ n, (env.resp n).statusCode = 202) :
    (processItem p env).outcome = .error .timedOut ∧
    (∀ timeoutMs resp k elapsed, timeoutMs ≤ elapsed →
      pollLoop timeoutMs resp k elapsed = ⟨.timedOut, 0, 0⟩) := by
  obtain ⟨body, hok⟩ := promptLayerBuildRequestBody_isOk p hiv hmd
  obtain ⟨v, hv, hv0⟩ := hid
  constructor
  · have hres := pollLoop_all_202_result ((p.additionalFields.timeout.getD 10) * 60000)
      env.resp h202 ((p.additionalFields.timeout.getD 10) * 60000) 0 0 (by omega)
    simp [processItem, hok, hv, hv0, hres]
  · intro timeoutMs resp k elapsed he
    rw [pollLoop]
    simp [Nat.not_lt.mpr he]

/-- C2 witness: a concrete item (valid empty JSON inputs, execution id 1,
every poll 202 with zero latency) times out, and a loop entered with the
budget already exhausted does nothing. -/
theorem polling_all_202_times_out_witness :
    (processItem ⟨"agent", false, 0, "", .ok (Json.obj []), none, none, none⟩
        ⟨some 1, fun _ => ⟨202, "Accepted", Json.null, 0⟩⟩).outcome =
      .error .timedOut ∧
    (∀ timeoutMs resp k elapsed, timeoutMs ≤ elapsed →
      pollLoop timeoutMs resp k elapsed = ⟨.timedOut, 0, 0⟩) :=
  polling_all_202_times_out _ _ ⟨Json.obj [], rfl⟩
    (fun e he => by simp at he) ⟨1, rfl, by omega⟩ (fun n => rfl)

/-- C1 counterexample: a poll response with HTTP status code 200 whose
status message is not "OK" does not complete the loop; the run ends in
`unexpectedStatus 200` instead of `completed` with the response body. -/
theorem poll_200_bad_message_cex :
    (pollLoop 600000 (fun _ => ⟨200, "Accepted", Json.str "done", 0⟩) 0 0).result =
      .unexpectedStatus 200 := by
  rw [pollLoop]
  simp

/-- C1 amended: a poll response with status code 200 completes the loop
with the full response body exactly when its status message is "OK"; a
200 with any other status message is treated as an unexpected status
code.  Either way only this one poll is issued and no sleep happens. -/
theorem poll_200_completion_requires_ok_message (timeoutMs : Nat)
    (resp : Nat → PollResponse) (k elapsed : Nat)
    (hlt : elapsed < timeoutMs) (h200 : (resp k).statusCode = 200) :
    ((resp k).statusMessage = "OK" →
      pollLoop timeoutMs resp k elapsed = ⟨.completed (resp k).body, 0, 1⟩) ∧
    ((resp k).statusMessage ≠ "OK" →
      pollLoop timeoutMs resp k elapsed = ⟨.unexpectedStatus 200, 0, 1⟩) := by
  constructor <;> intro hmsg <;> rw [pollLoop] <;> simp [hlt, h200, hmsg]

/-- C1 witness: with a concrete 200/"OK" first response the loop returns
its body after one poll; with 200/"Accepted" it fails. -/
theorem poll_200_completion_requires_ok_message_witness :
    (((fun _ => ⟨200, "OK", Json.str "done", 0⟩ : Nat → PollResponse) 0).statusMessage = "OK" →
      pollLoop 600000 (fun _ => ⟨200, "OK", Json.str "done", 0⟩) 0 0 =
        ⟨.completed (((fun _ => ⟨200, "OK", Json.str "done", 0⟩ : Nat → PollResponse) 0).body), 0, 1⟩) ∧
    (((fun _ => ⟨200, "OK", Json.str "done", 0⟩ : Nat → PollResponse) 0).statusMessage ≠ "OK" →
      pollLoop 600000 (fun _ => ⟨200, "OK", Json.str "done", 0⟩) 0 0 =
        ⟨.unexpectedStatus 200, 0, 1⟩) :=
  poll_200_completion_requires_ok_message 600000
    (fun _ => ⟨200, "OK", Json.str "done", 0⟩) 0 0 (by omega) rfl

/-- C4: a poll response whose status code is neither 200 nor 202
immediately ends the run with `unexpectedStatus` carrying that code,
after exactly this one poll and with no sleep: no further polling
happens regardless of later responses. -/
theorem poll_unexpected_status_fatal (timeoutMs : Nat) (resp : Nat → PollResponse)
    (k elapsed : Nat) (hlt : elapsed < timeoutMs)
    (h200 : (resp k).statusCode ≠ 200) (h202 : (resp k).statusCode ≠ 202) :
    pollLoop timeoutMs resp k elapsed =
      ⟨.unexpectedStatus (resp k).statusCode, 0, 1⟩ := by
  rw [pollLoop]
  simp [hlt, h200, h202]

/-- C4 witness: a 404 on the very first poll gives `unexpectedStatus 404`
after exactly one poll. -/
theorem poll_unexpected_status_fatal_witness :
    pollLoop 600000 (fun _ => ⟨404, "Not Found", Json.null, 0⟩) 0 0 =
      ⟨.unexpectedStatus (((fun _ => ⟨404, "Not Found", Json.null, 0⟩ :
        Nat → PollResponse) 0).statusCode), 0, 1⟩ :=
  poll_unexpected_status_fatal 600000 _ 0 0 (by omega) (by simp) (by simp)

/-- C8: when the submission response has no
`workflow_version_execution_id` field, the item fails with
`missingExecutionId` and no poll is ever issued. -/
theorem missing_execution_id_fatal (p : ItemParams) (env : ItemEnv)
    (hiv : ∃ j, p.inputVariables = .ok j)
    (hmd : ∀ e, p.additionalFields.metadata = some e → ∃ j, e = .ok j)
    (hid : env.execIdField = none) :
    (processItem p env).outcome = .error .missingExecutionId ∧
    (processItem p env).polls = 0 := by
  obtain ⟨body, hok⟩ := promptLayerBuildRequestBody_isOk p hiv hmd
  simp [processItem, hok, hid]

/-- C8 witness: concrete item whose submission response lacks the id. -/
theorem missing_execution_id_fatal_witness :
    (processItem ⟨"agent", false, 0, "", .ok (Json.obj []), none, none, none⟩
        ⟨none, fun _ => ⟨200, "OK", Json.null, 0⟩⟩).outcome =
      .error .missingExecutionId ∧
    (processItem ⟨"agent", false, 0, "", .ok (Json.obj []), none, none, none⟩
        ⟨none, fun _ => ⟨200, "OK", Json.null, 0⟩⟩).polls = 0 :=
  missing_execution_id_fatal _ _ ⟨Json.obj [], rfl⟩ (fun e he => by simp at he) rfl

/-- C9: a submission response carrying `workflow_version_execution_id`
with value 0 behaves exactly like one lacking the field (`if (!execId)`
is true for `0`): the whole item run is identical, it reports
`missingExecutionId`, and no poll is issued. -/
theorem zero_execution_id_like_absent (p : ItemParams) (resp : Nat → PollResponse)
    (hiv : ∃ j, p.inputVariables = .ok j)
    (hmd : ∀ e, p.additionalFields.metadata = some e → ∃ j, e = .ok j) :
    processItem p ⟨some 0, resp⟩ = processItem p ⟨none, resp⟩ ∧
    (processItem p ⟨some 0, resp⟩).outcome = .error .missingExecutionId ∧
    (processItem p ⟨some 0, resp⟩).polls = 0 := by
  obtain ⟨body, hok⟩ := promptLayerBuildRequestBody_isOk p hiv hmd
  simp [processItem, hok]

/-- C9 witness: concrete item whose submission response carries id 0. -/
theorem zero_execution_id_like_absent_witness :
    processItem ⟨"agent", false, 0, "", .ok (Json.obj []), none, none, none⟩
        ⟨some 0, fun _ => ⟨200, "OK", Json.null, 0⟩⟩ =
      processItem ⟨"agent", false, 0, "", .ok (Json.obj []), none, none, none⟩
        ⟨none, fun _ => ⟨200, "OK", Json.null, 0⟩⟩ ∧
    (processItem ⟨"agent", false, 0, "", .ok (Json.obj []), none, none, none⟩
        ⟨some 0, fun _ => ⟨200, "OK", Json.null, 0⟩⟩).outcome =
      .error .missingExecutionId ∧
    (processItem ⟨"agent", false, 0, "", .ok (Json.obj []), none, none, none⟩
        ⟨some 0, fun _ => ⟨200, "OK", Json.null, 0⟩⟩).polls = 0 :=
  zero_execution_id_like_absent _ _ ⟨Json.obj [], rfl⟩ (fun e he => by simp at he)

/-- C10: a version number of 0 in version mode (the JS default, since
`Number('') = 0` and `Number(null) = 0`) leaves `workflow_version_number`
out of the body, and an empty label in label mode leaves
`workflow_label_name` out: the selector keys are simply omitted. -/
theorem falsy_selector_omitted (p : ItemParams)
    (hiv : ∃ j, p.inputVariables = .ok j)
    (hmd : ∀ e, p.additionalFields.metadata = some e → ∃ j, e = .ok j) :
    ∃ body, promptLayerBuildRequestBody p = .ok body ∧
      (p.useAgentLabel = false → p.agentVersionNumber = 0 →
        "workflow_version_number" ∉ bodyKeys body) ∧
      (p.useAgentLabel = true → p.agentLabelName = "" →
        "workflow_label_name" ∉ bodyKeys body) := by
  obtain ⟨an, ul, vn, ln, iv, md, rao, tmo⟩ := p
  obtain ⟨j, hj⟩ := hiv
  simp only at hj hmd ⊢
  subst hj
  obtain ⟨md', rfl⟩ : ∃ md' : Option Json, md = Option.map Except.ok md' := by
    rcases md with _ | e
    · exact ⟨none, rfl⟩
    · obtain ⟨jm, rfl⟩ := hmd e rfl
      exact ⟨some jm, rfl⟩
  refine ⟨_, promptLayerBuildRequestBody_ok_eq an ul vn ln j md' rao tmo, ?_, ?_⟩
  · rintro rfl rfl
    rcases md' with _ | jm <;> simp [bodyKeys]
  · rintro rfl rfl
    rcases md' with _ | jm <;> simp [bodyKeys]

/-- C10 witness: version mode with version 0 and label mode with empty
label, on concrete inputs. -/
theorem falsy_selector_omitted_witness :
    ∃ body, promptLayerBuildRequestBody
        ⟨"agent", false, 0, "", .ok (Json.obj []), none, none, none⟩ = .ok body ∧
      ((false : Bool) = false → (0 : Int) = 0 →
        "workflow_version_number" ∉ bodyKeys body) ∧
      ((false : Bool) = true → "" ≠ "" →
        "workflow_label_name" ∉ bodyKeys body) := by
  obtain ⟨body, h1, h2, h3⟩ := falsy_selector_omitted
    ⟨"agent", false, 0, "", .ok (Json.obj []), none, none, none⟩
    ⟨Json.obj [], rfl⟩ (fun e he => by simp at he)
  exact ⟨body, h1, fun _ _ => h2 rfl rfl, fun h _ => by simp at h⟩

/-- C6 counterexample: for the poll status sequence [202, 202, 200] where
the final 200 carries status message "Accepted" rather than "OK", the
loop does perform two 5-second suspensions but then fails with
`unexpectedStatus 200` instead of returning the third response's body. -/
theorem poll_sequence_200_bad_message_cex :
    pollLoop 600000
      (fun n => if n = 0 then ⟨202, "Accepted", Json.null, 0⟩
        else if n = 1 then ⟨202, "Accepted", Json.null, 0⟩
        else ⟨200, "Accepted", Json.str "done", 0⟩) 0 0 =
      ⟨.unexpectedStatus 200, 2, 3⟩ := by
  simp [pollLoop]

/-- C6 amended: for a poll sequence with statuses [202, 202, 200] within
the timeout budget whose third response carries status message "OK" (as
an ordinary HTTP 200 does), the loop performs exactly two 5-second
suspensions, issues exactly three polls, and returns the third
response's body. -/
theorem poll_sequence_two_sleeps_then_body (timeoutMs : Nat)
    (resp : Nat → PollResponse)
    (h0 : (resp 0).statusCode = 202) (h1 : (resp 1).statusCode = 202)
    (h2 : (resp 2).statusCode = 200) (h2m : (resp 2).statusMessage = "OK")
    (ht1 : 0 < timeoutMs)
    (ht2 : (resp 0).latency + 5000 < timeoutMs)
    (ht3 : (resp 0).latency + 5000 + ((resp 1).latency + 5000) < timeoutMs) :
    pollLoop timeoutMs resp 0 0 = ⟨.completed (resp 2).body, 2, 3⟩ := by
  have e3 : pollLoop timeoutMs resp 2
      ((resp 0).latency + 5000 + ((resp 1).latency + 5000)) =
      ⟨.completed (resp 2).body, 0, 1⟩ := by
    rw [pollLoop]
    simp [ht3, h2, h2m]
  have e2 : pollLoop timeoutMs resp 1 ((resp 0).latency + 5000) =
      ⟨.completed (resp 2).body, 1, 2⟩ := by
    rw [pollLoop]
    have hre : (resp 0).latency + 5000 + (resp 1).latency + 5000 =
        (resp 0).latency + 5000 + ((resp 1).latency + 5000) := by omega
    simp [ht2, h1, hre, e3]
  rw [pollLoop]
  have hz : 0 + (resp 0).latency + 5000 = (resp 0).latency + 5000 := by omega
  simp [ht1, h0, hz, e2]

/-- C6 witness: concrete streams with zero latency and the default
10-minute budget. -/
theorem poll_sequence_two_sleeps_then_body_witness :
    pollLoop 600000
      (fun n => if n = 0 then ⟨202, "Accepted", Json.null, 0⟩
        else if n = 1 then ⟨202, "Accepted", Json.null, 0⟩
        else ⟨200, "OK", Json.str "done", 0⟩) 0 0 =
      ⟨.completed (((fun n => if n = 0 then ⟨202, "Accepted", Json.null, 0⟩
        else if n = 1 then ⟨202, "Accepted", Json.null, 0⟩
        else ⟨200, "OK", Json.str "done", 0⟩ : Nat → PollResponse)) 2).body, 2, 3⟩ :=
  poll_sequence_two_sleeps_then_body 600000
    (fun n => if n = 0 then ⟨202, "Accepted", Json.null, 0⟩
      else if n = 1 then ⟨202, "Accepted", Json.null, 0⟩
      else ⟨200, "OK", Json.str "done", 0⟩)
    rfl rfl rfl rfl (by omega) (by simp) (by simp)

/-- C7: the listing loop follows the server-provided `next_num` cursor:
starting at page 1, with `server 1` pointing at page `p2` and `server p2`
pointing at page `p3` (both with `has_next` true) and `server p3` ending
the listing (`has_next` false, `next_num` null), the accumulated names
are those of the three pages in page order, the fetched-page trace is
exactly `[1, p2, p3]`, and when the three cursors are pairwise distinct
no page is fetched twice.  Instantiating `p2 = 2`, `p3 = 3` gives the
spec's `has_next = true,true,false`, `next_num = 2,3,null` example. -/
theorem pagination_follows_next_num (server : Nat → WorkflowsPage)
    (p2 p3 : Nat) (i1 i2 i3 : List String) (fuel : Nat)
    (h1 : server 1 = ⟨i1, true, some p2⟩)
    (h2 : server p2 = ⟨i2, true, some p3⟩)
    (h3 : server p3 = ⟨i3, false, none⟩)
    (hp2 : p2 ≠ 0) (hp3 : p3 ≠ 0) (hfuel : 3 ≤ fuel) :
    getWorkflows server fuel = some (i1 ++ i2 ++ i3, [1, p2, p3]) ∧
    (1 ≠ p2 → 1 ≠ p3 → p2 ≠ p3 → ([1, p2, p3] : List Nat).Nodup) := by
  obtain ⟨f, rfl⟩ : ∃ f, fuel = f + 1 + 1 + 1 := ⟨fuel - 3, by omega⟩
  constructor
  · simp [getWorkflows, getWorkflowsLoop, nextPageNumber, h1, h2, h3, hp2, hp3]
  · intro a b c
    simp [List.nodup_cons, a, b, c]

/-- C7 witness: the spec's concrete three-page listing with
`next_num = 2, 3, null`. -/
theorem pagination_follows_next_num_witness :
    getWorkflows
      (fun p => if p = 1 then ⟨["a"], true, some 2⟩
        else if p = 2 then ⟨["b"], true, some 3⟩
        else ⟨["c"], false, none⟩) 3 =
      some (["a"] ++ ["b"] ++ ["c"], [1, 2, 3]) ∧
    ((1 : Nat) ≠ 2 → (1 : Nat) ≠ 3 → (2 : Nat) ≠ 3 →
      ([1, 2, 3] : List Nat).Nodup) :=
  pagination_follows_next_num
    (fun p => if p = 1 then ⟨["a"], true, some 2⟩
      else if p = 2 then ⟨["b"], true, some 3⟩
      else ⟨["c"], false, none⟩)
    2 3 ["a"] ["b"] ["c"] 3 rfl rfl rfl (by omega) (by omega) (by omega)

/-- Items that all succeed produce a same-length list of `success`
entries, whatever the continue-on-fail flag. -/
theorem executeFrom_all_ok (cof : Bool) :
    ∀ (xs : List (ItemParams × ItemEnv)) (i : Nat),
      (∀ x ∈ xs, ∃ b, (processItem x.1 x.2).outcome = .ok b) →
      ∃ out, executeFrom cof i xs = .ok out ∧ out.length = xs.length ∧
        ∀ n, n < out.length → ∃ b, out[n]? = some (.success b) := by
  intro xs
  induction xs with
  | nil =>
    intro i _
    exact ⟨[], rfl, rfl, by simp⟩
  | cons x rest ih =>
    intro i h
    obtain ⟨p, env⟩ := x
    obtain ⟨b, hb⟩ := h (p, env) (List.mem_cons_self _ rest)
    obtain ⟨out, hout, hlen, hsucc⟩ := ih (i + 1) (fun y hy => h y (List.mem_cons_of_mem _ hy))
    refine ⟨.success b :: out, ?_, by simp [hlen], ?_⟩
    · simp only [executeFrom, hb, hout]
    · rintro (_ | n) hn
      · exact ⟨b, by simp⟩
      · simp only [List.getElem?_cons_succ]
        exact hsucc n (by simpa using hn)

/-- A run whose only failing item sits at position `pre.length`, started
at item index `i`: with continue-on-fail the output is 1:1 with an error
entry exactly there; without it the run aborts carrying the message and
the failing item's index. -/
theorem executeFrom_single_failure (err : NodeError) :
    ∀ (pre : List (ItemParams × ItemEnv)) (i : Nat)
      (pk : ItemParams × ItemEnv) (post : List (ItemParams × ItemEnv)),
      (∀ x ∈ pre, ∃ b, (processItem x.1 x.2).outcome = .ok b) →
      (processItem pk.1 pk.2).outcome = .error err →
      (∀ x ∈ post, ∃ b, (processItem x.1 x.2).outcome = .ok b) →
      (∃ out, executeFrom true i (pre ++ pk :: post) = .ok out ∧
        out.length = pre.length + 1 + post.length ∧
        out[pre.length]? = some (.errorEntry err.message (i + pre.length)) ∧
        (∀ n, n < out.length → n ≠ pre.length →
          ∃ b, out[n]? = some (.success b))) ∧
      executeFrom false i (pre ++ pk :: post) =
        .error ("Error executing Agent: " ++ err.message, i + pre.length) := by
  intro pre
  induction pre with
  | nil =>
    intro i pk post _ hk hpost
    obtain ⟨p, env⟩ := pk
    simp only at hk
    obtain ⟨out, hout, hlen, hsucc⟩ := executeFrom_all_ok true post (i + 1) hpost
    constructor
    · refine ⟨.errorEntry err.message i :: out,
        ?_, by simp only [List.length_cons, hlen, List.length_nil]; omega, by simp, ?_⟩
      · simp only [List.nil_append, executeFrom, hk, hout, if_true]
      · rintro (_ | n) hn hne
        · exact absurd rfl hne
        · simp only [List.getElem?_cons_succ]
          exact hsucc n (by simpa using hn)
    · simp only [List.nil_append, executeFrom, hk]
      simp
  | cons x pre' ih =>
    intro i pk post hpre hk hpost
    obtain ⟨p, env⟩ := x
    obtain ⟨b, hb⟩ := hpre (p, env) (List.mem_cons_self _ pre')
    obtain ⟨⟨outIH, houtIH, hlenIH, hkIH, hsuccIH⟩, habort⟩ :=
      ih (i + 1) pk post (fun y hy => hpre y (List.mem_cons_of_mem _ hy)) hk hpost
    have heq : i + 1 + pre'.length = i + (pre'.length + 1) := by omega
    constructor
    · refine ⟨.success b :: outIH, ?_, ?_, ?_, ?_⟩
      · simp only [List.cons_append, executeFrom, List.append_eq, hb, houtIH]
      · simp only [List.length_cons, hlenIH]
        omega
      · simp only [List.length_cons, List.getElem?_cons_succ, ← heq, hkIH]
      · rintro (_ | n) hn hne
        · exact ⟨b, by simp⟩
        · simp only [List.getElem?_cons_succ]
          refine hsuccIH n ?_ ?_
          · simpa using hn
          · simpa using hne
    · simp only [List.cons_append, executeFrom, List.append_eq, hb, habort,
        List.length_cons, ← heq]

/-- C5: for an input list in which exactly one item (the one at position
`pre.length`) fails, with continue-on-fail the output list has the same
length as the input, the entry at the failing position is an error entry
carrying the thrown message and that item index, every other entry is a
success result, and processing continues past the failure; without
continue-on-fail the run aborts at the failing item, propagating the
message with the item index attached. -/
theorem continue_on_fail_isolation (pre post : List (ItemParams × ItemEnv))
    (pk : ItemParams × ItemEnv) (err : NodeError)
    (hpre : ∀ x ∈ pre, ∃ b, (processItem x.1 x.2).outcome = .ok b)
    (hk : (processItem pk.1 pk.2).outcome = .error err)
    (hpost : ∀ x ∈ post, ∃ b, (processItem x.1 x.2).outcome = .ok b) :
    (∃ out, executeAll true (pre ++ pk :: post) = .ok out ∧
      out.length = (pre ++ pk :: post).length ∧
      out[pre.length]? = some (.errorEntry err.message pre.length) ∧
      (∀ n, n < out.length → n ≠ pre.length →
        ∃ b, out[n]? = some (.success b))) ∧
    executeAll false (pre ++ pk :: post) =
      .error ("Error executing Agent: " ++ err.message, pre.length) := by
  obtain ⟨⟨out, hout, hlen, hkth, hsucc⟩, habort⟩ :=
    executeFrom_single_failure err pre 0 pk post hpre hk hpost
  refine ⟨⟨out, hout, ?_, by simpa using hkth, hsucc⟩, by simpa using habort⟩
  simp only [hlen, List.length_append, List.length_cons]
  omega

/-- C5 witness: two items, the second of which (and only it) fails
because its submission response lacks the execution id; the first
succeeds via an immediate 200/"OK" poll. -/
theorem continue_on_fail_isolation_witness :
    (∃ out, executeAll true
        ([((⟨"agent", false, 0, "", .ok (Json.obj []), none, none, none⟩ : ItemParams),
           (⟨some 1, fun _ => ⟨200, "OK", Json.str "res", 0⟩⟩ : ItemEnv))] ++
          ((⟨"agent", false, 0, "", .ok (Json.obj []), none, none, none⟩ : ItemParams),
           (⟨none, fun _ => ⟨200, "OK", Json.str "res", 0⟩⟩ : ItemEnv)) :: []) = .ok out ∧
      out.length =
        ([((⟨"agent", false, 0, "", .ok (Json.obj []), none, none, none⟩ : ItemParams),
           (⟨some 1, fun _ => ⟨200, "OK", Json.str "res", 0⟩⟩ : ItemEnv))] ++
          ((⟨"agent", false, 0, "", .ok (Json.obj []), none, none, none⟩ : ItemParams),
           (⟨none, fun _ => ⟨200, "OK", Json.str "res", 0⟩⟩ : ItemEnv)) :: []).length ∧
      out[1]? = some (.errorEntry NodeError.missingExecutionId.message 1) ∧
      (∀ n, n < out.length → n ≠ 1 →
        ∃ b, out[n]? = some (.success b))) ∧
    executeAll false
        ([((⟨"agent", false, 0, "", .ok (Json.obj []), none, none, none⟩ : ItemParams),
           (⟨some 1, fun _ => ⟨200, "OK", Json.str "res", 0⟩⟩ : ItemEnv))] ++
          ((⟨"agent", false, 0, "", .ok (Json.obj []), none, none, none⟩ : ItemParams),
           (⟨none, fun _ => ⟨200, "OK", Json.str "res", 0⟩⟩ : ItemEnv)) :: []) =
      .error ("Error executing Agent: " ++ NodeError.missingExecutionId.message, 1) :=
  continue_on_fail_isolation
    [(⟨"agent", false, 0, "", .ok (Json.obj []), none, none, none⟩,
      ⟨some 1, fun _ => ⟨200, "OK", Json.str "res", 0⟩⟩)]
    []
    (⟨"agent", false, 0, "", .ok (Json.obj []), none, none, none⟩,
      ⟨none, fun _ => ⟨200, "OK", Json.str "res", 0⟩⟩)
    .missingExecutionId
    (by
      rintro x hx
      simp only [List.mem_singleton] at hx
      subst hx
      exact ⟨Json.str "res",
        by simp [processItem, promptLayerBuildRequestBody, pollLoop, Bind.bind, Except.bind]⟩)
    (by simp [processItem, promptLayerBuildRequestBody, Bind.bind, Except.bind])
    (by rintro x hx; simp at hx)
